import Mathlib

/-!
Verification of the authentication and authorization core of the
task-management-api backend (TypeScript). The definitions below are a
shallow embedding of the source files:
  - src/config/jwt.ts           (token codec, TTL parsing)
  - src/services/auth.service.ts (login, lockout, sessions, refresh, logout)
  - src/middleware auth middleware (authenticate, requirePermission, ...)
Machine integers are modelled as Nat/Int; timestamps are epoch
milliseconds; fallible operations return Except/Option.
-/

/-- Error codes (src/types/constants/errors.ts, referenced at every throw
site in the auth core). -/
inductive ErrorCode
  | TOKEN_INVALID
  | TOKEN_EXPIRED
  | ACCOUNT_LOCKED
  | INVALID_CREDENTIALS
  | REFRESH_TOKEN_INVALID
  | PERMISSION_DENIED
  | RATE_LIMIT_EXCEEDED
  | DUPLICATE_ENTRY
  | VALIDATION_ERROR
  | INTERNAL_ERROR
  | RESOURCE_NOT_FOUND
  deriving DecidableEq, Repr

/-- AppError (src/types/base/error.ts): a tagged error carrying a message,
an HTTP status and a machine code. -/
structure AppError where
  message : String
  statusCode : Nat
  code : ErrorCode
  deriving DecidableEq, Repr

/-- Role row joined into every user lookup (roles table). -/
structure Role where
  id : Nat
  name : String
  display_name : String
  permissions : List String
  is_active : Bool
  deriving DecidableEq, Repr

/-- User row (users table): the fields the auth core reads and writes. -/
structure User where
  id : Nat
  email : String
  password_hash : String
  role_id : Nat
  is_active : Bool
  login_attempts : Nat
  locked_until : Option Nat
  last_login : Option Nat
  deriving DecidableEq, Repr

/-- UserWithRole (src/types/auth/user.ts): what getUserById/getUserByEmail
return — the user row with its role attached. -/
structure UserWithRole where
  id : Nat
  email : String
  is_active : Bool
  login_attempts : Nat
  locked_until : Option Nat
  role : Role
  deriving DecidableEq, Repr

/-- UserSession row (src/types/auth/session.ts, user_sessions table). -/
structure UserSession where
  id : Nat
  user_id : Nat
  session_token : String
  refresh_token : String
  is_active : Bool
  expires_at : Nat
  deriving DecidableEq, Repr

/-- The relational store visible to the auth core. -/
structure DB where
  users : List User
  roles : List Role
  sessions : List UserSession
  nextSessionId : Nat
  deriving DecidableEq, Repr

/-- JWTPayload (src/types/auth/responses.ts). `permissions` is optional at
the token level: the refresh-token payload omits the claim entirely
(generateRefreshToken takes Omit<JWTPayload, 'permissions'>), which we
represent as `none`. -/
structure JWTPayload where
  user_id : Nat
  email : String
  role : String
  permissions : Option (List String)
  session_id : Nat
  deriving DecidableEq, Repr

/-- A signed compact token as produced by jwt.sign: payload plus exp, iss,
aud claims. The `secret` field models the signature: verification succeeds
only against the same secret. -/
structure SignedToken where
  payload : JWTPayload
  exp : Nat
  iss : String
  aud : String
  secret : String
  deriving DecidableEq, Repr

/-- JWTConfig (src/config/jwt.ts lines 8-23), with the fallback defaults
used when the environment provides nothing. -/
structure JWTConfig where
  secret : String
  access_token_expires_in : String
  refresh_token_expires_in : String
  issuer : String
  audience : String
  deriving DecidableEq, Repr

def jwtConfig : JWTConfig :=
  { secret := "your-super-secret-jwt-key"
    access_token_expires_in := "15m"
    refresh_token_expires_in := "7d"
    issuer := "task-management-api"
    audience := "task-management-app" }

/-- Model of the two failure kinds of the jsonwebtoken library:
TokenExpiredError and JsonWebTokenError. -/
inductive JwtVerifyError
  | expired
  | invalid
  deriving DecidableEq, Repr

/-- Model of jwt.verify: the signature is checked first, then expiry
(TokenExpiredError when now is at or past exp), then audience and issuer
(JsonWebTokenError), mirroring the check order of the jsonwebtoken
library used by src/config/jwt.ts. -/
def jwtVerify (tok : SignedToken) (secret iss aud : String) (now : Nat) :
    Except JwtVerifyError JWTPayload :=
  if tok.secret ≠ secret then .error .invalid
  else if tok.exp ≤ now then .error .expired
  else if tok.aud ≠ aud then .error .invalid
  else if tok.iss ≠ iss then .error .invalid
  else .ok tok.payload

/-- generateAccessToken (src/config/jwt.ts lines 26-36): signs the payload
with the configured secret, issuer, audience and the 15-minute TTL. -/
def generateAccessToken (payload : JWTPayload) (now : Nat) : SignedToken :=
  { payload := payload
    exp := now + 15 * 60 * 1000
    iss := jwtConfig.issuer
    aud := jwtConfig.audience
    secret := jwtConfig.secret }

/-- generateRefreshToken (src/config/jwt.ts lines 39-49): same mechanism,
7-day TTL; the caller passes a payload without the permissions claim. -/
def generateRefreshToken (payload : JWTPayload) (now : Nat) : SignedToken :=
  { payload := payload
    exp := now + 7 * 24 * 60 * 60 * 1000
    iss := jwtConfig.issuer
    aud := jwtConfig.audience
    secret := jwtConfig.secret }

/-- verifyAccessToken (src/config/jwt.ts lines 52-70): TokenExpiredError
becomes TOKEN_EXPIRED, every other verification failure TOKEN_INVALID. -/
def verifyAccessToken (tok : SignedToken) (now : Nat) :
    Except AppError JWTPayload :=
  match jwtVerify tok jwtConfig.secret jwtConfig.issuer jwtConfig.audience now with
  | .ok p => .ok p
  | .error .expired => .error ⟨"Token expired", 401, .TOKEN_EXPIRED⟩
  | .error .invalid => .error ⟨"Invalid token", 401, .TOKEN_INVALID⟩

/-- verifyRefreshToken (src/config/jwt.ts lines 73-91): both
TokenExpiredError and JsonWebTokenError are mapped to the
REFRESH_TOKEN_INVALID code (only the messages differ). -/
def verifyRefreshToken (tok : SignedToken) (now : Nat) :
    Except AppError JWTPayload :=
  match jwtVerify tok jwtConfig.secret jwtConfig.issuer jwtConfig.audience now with
  | .ok p => .ok p
  | .error .expired => .error ⟨"Refresh token expired", 401, .REFRESH_TOKEN_INVALID⟩
  | .error .invalid => .error ⟨"Invalid refresh token", 401, .REFRESH_TOKEN_INVALID⟩

/-- Digit-list value, used to model the JavaScript parseInt builtin. -/
def digitsToNat (ds : List Char) : Nat :=
  ds.foldl (fun a c => a * 10 + (c.toNat - 48)) 0

/-- Model of the JavaScript parseInt builtin on the inputs the TTL parser
feeds it: an optional sign followed by a maximal run of leading digits;
`none` models NaN (no leading digit). -/
def parseIntJS (s : List Char) : Option Int :=
  match s with
  | '-' :: rest =>
    if (rest.takeWhile (fun c => c.isDigit)).isEmpty then none
    else some (-(digitsToNat (rest.takeWhile (fun c => c.isDigit)) : Int))
  | '+' :: rest =>
    if (rest.takeWhile (fun c => c.isDigit)).isEmpty then none
    else some ((digitsToNat (rest.takeWhile (fun c => c.isDigit)) : Int))
  | _ =>
    if (s.takeWhile (fun c => c.isDigit)).isEmpty then none
    else some ((digitsToNat (s.takeWhile (fun c => c.isDigit)) : Int))

/-- getAccessTokenExpirationTime, parameterized by the TTL string
(src/config/jwt.ts lines 94-106): the last character selects the unit
(timeString.slice(-1)), the rest is fed to parseInt
(timeString.slice(0,-1)); unknown or missing unit falls back to 3600.
`none` models the NaN produced when parseInt fails on a known unit. -/
def expirationSecondsOf (timeString : List Char) : Option Int :=
  let value := parseIntJS timeString.dropLast
  match timeString.getLast? with
  | none => some 3600
  | some u =>
    if u = 's' then value
    else if u = 'm' then value.map (fun x => x * 60)
    else if u = 'h' then value.map (fun x => x * 60 * 60)
    else if u = 'd' then value.map (fun x => x * 24 * 60 * 60)
    else some 3600

/-- getAccessTokenExpirationTime (src/config/jwt.ts lines 94-106) applied
to the configured access-token TTL. -/
def getAccessTokenExpirationTime : Option Int :=
  expirationSecondsOf jwtConfig.access_token_expires_in.data

example : getAccessTokenExpirationTime = some 900 := by decide
example : expirationSecondsOf "7d".data = some 604800 := by decide
example : expirationSecondsOf "900".data = some 3600 := by decide
example : expirationSecondsOf "".data = some 3600 := by decide

/-- Model of the bcrypt library: hash tags the plaintext, compare checks
the digest against the hash of the plaintext. -/
def bcryptHash (plaintext : String) : String :=
  "bcrypt$" ++ plaintext

/-- bcrypt.compare model: true iff the digest is the hash of the
plaintext; never throws on a wrong password. -/
def bcryptCompare (plaintext digest : String) : Bool :=
  digest == bcryptHash plaintext

/-- SELECT ... FROM users WHERE email = ? (first matching row). -/
def queryUserByEmail (db : DB) (email : String) : Option User :=
  db.users.find? (fun u => u.email == email)

/-- SELECT ... FROM users WHERE id = ? (first matching row). -/
def queryUserById (db : DB) (id : Nat) : Option User :=
  db.users.find? (fun u => u.id == id)

/-- SELECT ... FROM roles WHERE id = ?. -/
def queryRoleById (db : DB) (rid : Nat) : Option Role :=
  db.roles.find? (fun r => r.id == rid)

/-- UPDATE users SET ... WHERE id = ?. -/
def updateUserRow (db : DB) (id : Nat) (f : User → User) : DB :=
  { db with users := db.users.map (fun u => if u.id == id then f u else u) }

/-- Join a user row with its role (the INNER JOIN in getUserById /
getUserByEmail; a missing role drops the row). -/
def joinRole (db : DB) (u : User) : Option UserWithRole :=
  match queryRoleById db u.role_id with
  | none => none
  | some r => some
    { id := u.id, email := u.email, is_active := u.is_active
      login_attempts := u.login_attempts, locked_until := u.locked_until
      role := r }

/-- getUserById (src/services/auth.service.ts lines 17-74): user joined
with its role. -/
def getUserById (db : DB) (id : Nat) : Option UserWithRole :=
  match queryUserById db id with
  | none => none
  | some u => joinRole db u

/-- getUserByEmail (src/services/auth.service.ts lines 77-137): user
joined with its role, keyed by email. -/
def getUserByEmail (db : DB) (email : String) : Option UserWithRole :=
  match queryUserByEmail db email with
  | none => none
  | some u => joinRole db u

/-- getActiveSessionById (src/services/auth.service.ts lines 140-147):
SELECT * FROM user_sessions WHERE id = ? AND is_active = 1 AND
expires_at > NOW(). -/
def getActiveSessionById (db : DB) (sessionId : Nat) (now : Nat) :
    Option UserSession :=
  db.sessions.find? (fun s =>
    s.id == sessionId && s.is_active && decide (now < s.expires_at))

/-- MAX_LOGIN_ATTEMPTS (src/services/auth.service.ts line 13). -/
def MAX_LOGIN_ATTEMPTS : Nat := 5

/-- LOCKOUT_TIME in milliseconds (src/services/auth.service.ts line 14). -/
def LOCKOUT_TIME : Nat := 15 * 60 * 1000

/-- isUserLocked (src/services/auth.service.ts lines 149-152): true iff
locked_until is set and strictly in the future. -/
def isUserLocked (user : UserWithRole) (now : Nat) : Bool :=
  match user.locked_until with
  | none => false
  | some t => decide (now < t)

/-- lockUser (src/services/auth.service.ts lines 154-163): UPDATE users
SET locked_until = now + LOCKOUT_TIME, login_attempts = 0 WHERE id = ?. -/
def lockUser (db : DB) (userId : Nat) (now : Nat) : DB :=
  updateUserRow db userId (fun u =>
    { u with locked_until := some (now + LOCKOUT_TIME), login_attempts := 0 })

/-- incrementLoginAttempts (src/services/auth.service.ts lines 165-176):
UPDATE login_attempts = login_attempts + 1, then re-read the user and
return its attempt count (0 when the re-read fails). -/
def incrementLoginAttempts (db : DB) (userId : Nat) : DB × Nat :=
  let db2 := updateUserRow db userId (fun u =>
    { u with login_attempts := u.login_attempts + 1 })
  (db2, match getUserById db2 userId with
        | some u => u.login_attempts
        | none => 0)

/-- resetLoginAttempts (src/services/auth.service.ts lines 178-186):
UPDATE login_attempts = 0, locked_until = NULL, last_login = NOW(). -/
def resetLoginAttempts (db : DB) (userId : Nat) (now : Nat) : DB :=
  updateUserRow db userId (fun u =>
    { u with login_attempts := 0, locked_until := none, last_login := some now })

/-- createUserSession (src/services/auth.service.ts lines 188-218): insert
an active session row expiring 7 days out; the two opaque tokens come from
crypto.randomBytes, modelled as caller-supplied entropy. Returns the new
row id. -/
def createUserSession (db : DB) (userId : Nat)
    (sessionToken refreshTokenRaw : String) (now : Nat) : DB × Nat :=
  let sid := db.nextSessionId
  let row : UserSession :=
    { id := sid, user_id := userId, session_token := sessionToken
      refresh_token := refreshTokenRaw, is_active := true
      expires_at := now + 7 * 24 * 60 * 60 * 1000 }
  ({ db with sessions := db.sessions ++ [row], nextSessionId := sid + 1 }, sid)

/-- LoginResponse (src/types/auth/responses.ts) as returned by loginUser. -/
structure LoginResponse where
  user : UserWithRole
  access_token : SignedToken
  refresh_token : SignedToken
  expires_in : Option Int
  deriving DecidableEq, Repr

instance {ε α : Type} [DecidableEq ε] [DecidableEq α] : DecidableEq (Except ε α) :=
  fun x y =>
    match x, y with
    | .ok a, .ok b =>
      if h : a = b then .isTrue (by rw [h])
      else .isFalse (fun hc => h (by injection hc))
    | .error a, .error b =>
      if h : a = b then .isTrue (by rw [h])
      else .isFalse (fun hc => h (by injection hc))
    | .ok _, .error _ => .isFalse (fun hc => Except.noConfusion hc)
    | .error _, .ok _ => .isFalse (fun hc => Except.noConfusion hc)

/-- Result of a loginUser call: its outcome, the store it leaves behind,
and whether bcrypt.compare was ever invoked on the stored hash. -/
structure LoginResult where
  outcome : Except AppError LoginResponse
  db : DB
  comparedPassword : Bool
  deriving DecidableEq, Repr

/-- loginUser (src/services/auth.service.ts lines 256-320). Ordered
checks: user lookup, lock check, active check, password compare; on a
wrong password the attempt counter is incremented and the account locked
when the count reaches MAX_LOGIN_ATTEMPTS; on success the counter is
reset, a session created, and access/refresh tokens issued (the refresh
payload omits the permissions claim). -/
def loginUser (db : DB) (email password : String)
    (sessionTokenEntropy refreshTokenEntropy : String) (now : Nat) :
    LoginResult :=
  match getUserByEmail db email with
  | none => ⟨.error ⟨"Credenciales inválidas", 401, .INVALID_CREDENTIALS⟩, db, false⟩
  | some user =>
    if isUserLocked user now then
      ⟨.error ⟨"Cuenta bloqueada temporalmente", 423, .ACCOUNT_LOCKED⟩, db, false⟩
    else if !user.is_active then
      ⟨.error ⟨"Cuenta deshabilitada", 401, .ACCOUNT_LOCKED⟩, db, false⟩
    else
      match queryUserById db user.id with
      | none =>
        ⟨.error ⟨"Error interno", 500, .INTERNAL_ERROR⟩, db, false⟩
      | some row =>
        if !bcryptCompare password row.password_hash then
          let inc := incrementLoginAttempts db user.id
          if MAX_LOGIN_ATTEMPTS ≤ inc.2 then
            ⟨.error ⟨"Demasiados intentos fallidos. Cuenta bloqueada temporalmente", 423, .ACCOUNT_LOCKED⟩,
             lockUser inc.1 user.id now, true⟩
          else
            ⟨.error ⟨"Credenciales inválidas", 401, .INVALID_CREDENTIALS⟩, inc.1, true⟩
        else
          let db1 := resetLoginAttempts db user.id now
          let created := createUserSession db1 user.id sessionTokenEntropy refreshTokenEntropy now
          let payload : JWTPayload :=
            { user_id := user.id, email := user.email, role := user.role.name
              permissions := some user.role.permissions, session_id := created.2 }
          let accessToken := generateAccessToken payload now
          let refreshToken := generateRefreshToken
            { user_id := user.id, email := user.email, role := user.role.name
              permissions := none, session_id := created.2 } now
          ⟨.ok { user := user, access_token := accessToken
                 refresh_token := refreshToken
                 expires_in := getAccessTokenExpirationTime }, created.1, true⟩

/-- Refresh response (loginUser response minus the user). -/
structure RefreshResponse where
  access_token : SignedToken
  refresh_token : String
  expires_in : Option Int
  deriving DecidableEq, Repr

/-- refreshAccessToken (src/services/auth.service.ts lines 322-352): look
up an active, unexpired session by its stored refresh secret, resolve its
owning user, and re-issue an access token carrying the user's current
role permissions; the caller-supplied refresh secret is returned
unchanged. -/
def refreshAccessToken (db : DB) (refreshToken : String) (now : Nat) :
    Except AppError RefreshResponse :=
  match db.sessions.find? (fun s =>
      s.refresh_token == refreshToken && s.is_active && decide (now < s.expires_at)) with
  | none => .error ⟨"Refresh token inválido", 401, .REFRESH_TOKEN_INVALID⟩
  | some session =>
    match getUserById db session.user_id with
    | none => .error ⟨"Usuario no válido", 401, .TOKEN_INVALID⟩
    | some user =>
      if !user.is_active then
        .error ⟨"Usuario no válido", 401, .TOKEN_INVALID⟩
      else
        let payload : JWTPayload :=
          { user_id := user.id, email := user.email, role := user.role.name
            permissions := some user.role.permissions, session_id := session.id }
        .ok { access_token := generateAccessToken payload now
              refresh_token := refreshToken
              expires_in := getAccessTokenExpirationTime }

/-- logoutUser (src/services/auth.service.ts lines 354-357): UPDATE
user_sessions SET is_active = 0 WHERE id = ?. -/
def logoutUser (db : DB) (sessionId : Nat) : DB :=
  { db with sessions := db.sessions.map (fun s =>
      if s.id == sessionId then { s with is_active := false } else s) }

/-- logoutAllSessions (src/services/auth.service.ts lines 359-362). -/
def logoutAllSessions (db : DB) (userId : Nat) : DB :=
  { db with sessions := db.sessions.map (fun s =>
      if s.user_id == userId then { s with is_active := false } else s) }

/-- The identity authenticate attaches to the request context (req.user
and req.session). -/
structure Identity where
  user : UserWithRole
  session : UserSession
  deriving DecidableEq, Repr

/-- The Authorization header as the middleware sees it: absent, present
without the Bearer prefix, or a bearer token. -/
inductive AuthHeader
  | missing
  | malformed (value : String)
  | bearer (token : SignedToken)
  deriving DecidableEq, Repr

/-- authenticate (auth middleware; the current revision is packaged in
src/middleware/errorHandler.ts lines 159-203): Bearer-header checks, JWT
verification, session-liveness check, user/role checks, and the
empty-permissions fallback that substitutes the token payload's
permission list when the resolved role carries none. -/
def authenticate (db : DB) (hdr : AuthHeader) (now : Nat) :
    Except AppError Identity :=
  match hdr with
  | .missing => .error ⟨"Authorization token required", 401, .TOKEN_INVALID⟩
  | .malformed _ => .error ⟨"Invalid token format", 401, .TOKEN_INVALID⟩
  | .bearer token =>
    match verifyAccessToken token now with
    | .error e => .error e
    | .ok payload =>
      match getActiveSessionById db payload.session_id now with
      | none => .error ⟨"Invalid or expired session", 401, .TOKEN_INVALID⟩
      | some session =>
        match getUserById db payload.user_id with
        | none => .error ⟨"User not found", 401, .TOKEN_INVALID⟩
        | some user =>
          if !user.is_active then
            .error ⟨"Account disabled", 401, .ACCOUNT_LOCKED⟩
          else if !user.role.is_active then
            .error ⟨"Role disabled", 401, .PERMISSION_DENIED⟩
          else
            let user :=
              if user.role.permissions.isEmpty then
                { user with role :=
                  { user.role with permissions := payload.permissions.getD [] } }
              else user
            .ok { user := user, session := session }

/-- requirePermission (auth middleware): ok iff the identity's role holds
the required permission or the wildcard. -/
def requirePermission (user : Option UserWithRole) (permission : String) :
    Except AppError Unit :=
  match user with
  | none => .error ⟨"User not authenticated", 401, .TOKEN_INVALID⟩
  | some u =>
    if u.role.permissions.contains permission || u.role.permissions.contains "*" then
      .ok ()
    else
      .error ⟨"Insufficient permissions", 403, .PERMISSION_DENIED⟩

/-- requireAnyPermission (auth middleware): ok iff some required
permission is held, or the wildcard is. -/
def requireAnyPermission (user : Option UserWithRole) (permissions : List String) :
    Except AppError Unit :=
  match user with
  | none => .error ⟨"User not authenticated", 401, .TOKEN_INVALID⟩
  | some u =>
    if permissions.any (fun p => u.role.permissions.contains p)
        || u.role.permissions.contains "*" then
      .ok ()
    else
      .error ⟨"Insufficient permissions", 403, .PERMISSION_DENIED⟩

/-- requireAllPermissions (auth middleware): ok iff every required
permission is held, or the wildcard is. -/
def requireAllPermissions (user : Option UserWithRole) (permissions : List String) :
    Except AppError Unit :=
  match user with
  | none => .error ⟨"User not authenticated", 401, .TOKEN_INVALID⟩
  | some u =>
    if permissions.all (fun p => u.role.permissions.contains p)
        || u.role.permissions.contains "*" then
      .ok ()
    else
      .error ⟨"Insufficient permissions", 403, .PERMISSION_DENIED⟩

/-- A JavaScript value as the database driver may return it for the
permissions column: an array of strings, a raw string, a number, or
null. -/
inductive DBVal
  | arr (xs : List String)
  | str (s : String)
  | num (n : Int)
  | null
  deriving DecidableEq, Repr

/-- JavaScript truthiness of a DBVal (arrays are always truthy, the empty
string, zero and null are falsy). -/
def jsTruthy : DBVal → Bool
  | .arr _ => true
  | .str s => s ≠ ""
  | .num n => n ≠ 0
  | .null => false

/-- The permissions-cell normalization inside getUserById
(src/services/auth.service.ts lines 34-48): arrays pass through, strings
go through JSON.parse with the catch producing [], anything else becomes
[]. The `parse` argument models JSON.parse; `none` models a throw. -/
def parsePermissionsById (parse : String → Option DBVal) (v : DBVal) : DBVal :=
  match v with
  | .arr xs => .arr xs
  | .str s =>
    match parse s with
    | some r => r
    | none => .arr []
  | _ => .arr []

/-- The permissions-cell normalization inside getUserByEmail
(src/services/auth.service.ts lines 94-111): arrays pass through,
non-empty strings go through JSON.parse with the catch producing [], and
any other truthy value is assigned unchanged; only falsy values leave the
initial [] in place. -/
def parsePermissionsByEmail (parse : String → Option DBVal) (v : DBVal) : DBVal :=
  match v with
  | .arr xs => .arr xs
  | .str s =>
    if s = "" then .arr []
    else
      match parse s with
      | some r => r
      | none => .arr []
  | other => if jsTruthy other then other else .arr []

lemma expirationSecondsOf_concat (ds : List Char) (c : Char) :
    expirationSecondsOf (ds ++ [c]) =
      (let value := parseIntJS ds
       if c = 's' then value
       else if c = 'm' then value.map (fun x => x * 60)
       else if c = 'h' then value.map (fun x => x * 60 * 60)
       else if c = 'd' then value.map (fun x => x * 24 * 60 * 60)
       else some 3600) := by
  simp [expirationSecondsOf, List.getLast?_concat, List.dropLast_concat]

/-- C9: expirationSeconds parses an integer followed by a unit suffix and
returns the duration in seconds (s → value, m → value×60, h → value×3600,
d → value×86400); for an unknown or missing unit suffix it returns 3600;
in particular the 15-minute TTL yields 900. -/
theorem C9_expiration_seconds
    (ds : List Char) (v : Int) (hds : parseIntJS ds = some v)
    (ts : List Char) (c : Char) (hlast : ts.getLast? = some c)
    (hs : c ≠ 's') (hm : c ≠ 'm') (hh : c ≠ 'h') (hd : c ≠ 'd') :
    expirationSecondsOf (ds ++ ['s']) = some v ∧
    expirationSecondsOf (ds ++ ['m']) = some (v * 60) ∧
    expirationSecondsOf (ds ++ ['h']) = some (v * 3600) ∧
    expirationSecondsOf (ds ++ ['d']) = some (v * 86400) ∧
    expirationSecondsOf ts = some 3600 ∧
    expirationSecondsOf [] = some 3600 ∧
    getAccessTokenExpirationTime = some 900 := by
  refine ⟨?_, ?_, ?_, ?_, ?_, by decide, by decide⟩
  · simp [expirationSecondsOf_concat, hds]
  · simp [expirationSecondsOf_concat, hds]
  · simp [expirationSecondsOf_concat, hds]; ring
  · simp [expirationSecondsOf_concat, hds]; ring
  · simp [expirationSecondsOf, hlast, hs, hm, hh, hd]

/-- Witness for C9 at the concrete TTL strings 9s/9m/9h/9d and the
unknown-unit string x. -/
theorem C9_expiration_seconds_witness :
    parseIntJS ['9'] = some 9 ∧
    expirationSecondsOf (['9'] ++ ['m']) = some (9 * 60) := by
  refine ⟨by decide, ?_⟩
  exact (C9_expiration_seconds ['9'] 9 (by decide) ['x'] 'x' (by decide)
    (by decide) (by decide) (by decide) (by decide)).2.1

/-- C6 counterexample: a refresh token with a valid signature, issuer and
audience whose expiry has passed fails with code REFRESH_TOKEN_INVALID,
not TOKEN_EXPIRED as the claim states. -/
theorem C6_counterexample :
    verifyRefreshToken
      { payload := { user_id := 1, email := "a@x.com", role := "user"
                     permissions := none, session_id := 1 }
        exp := 1000, iss := "task-management-api"
        aud := "task-management-app"
        secret := "your-super-secret-jwt-key" } 2000 =
      .error ⟨"Refresh token expired", 401, .REFRESH_TOKEN_INVALID⟩ ∧
    ErrorCode.REFRESH_TOKEN_INVALID ≠ ErrorCode.TOKEN_EXPIRED := by
  exact ⟨by decide, by decide⟩

/-- C6 (amended): verifyAccessToken fails with TOKEN_EXPIRED exactly when
the signature verifies and the expiry has passed (signature is checked
first), and with TOKEN_INVALID for any other structural or signature
failure, including wrong issuer or audience; verifyRefreshToken fails
with REFRESH_TOKEN_INVALID for every verification failure, the expired
case included. -/
theorem C6_verify_token_error_codes (tok : SignedToken) (now : Nat) :
    ((verifyRefreshToken tok now).mapError AppError.code
      = (jwtVerify tok jwtConfig.secret jwtConfig.issuer jwtConfig.audience now).mapError
          (fun _ => ErrorCode.REFRESH_TOKEN_INVALID)) ∧
    ((verifyAccessToken tok now).mapError AppError.code
      = (jwtVerify tok jwtConfig.secret jwtConfig.issuer jwtConfig.audience now).mapError
          (fun e => match e with
            | .expired => ErrorCode.TOKEN_EXPIRED
            | .invalid => ErrorCode.TOKEN_INVALID)) ∧
    (jwtVerify tok jwtConfig.secret jwtConfig.issuer jwtConfig.audience now
        = .error .expired
      ↔ (tok.secret = jwtConfig.secret ∧ tok.exp ≤ now)) := by
  refine ⟨?_, ?_, ?_⟩
  · cases h : jwtVerify tok jwtConfig.secret jwtConfig.issuer jwtConfig.audience now with
    | ok p => simp [verifyRefreshToken, h, Except.mapError]
    | error e => cases e <;> simp [verifyRefreshToken, h, Except.mapError]
  · cases h : jwtVerify tok jwtConfig.secret jwtConfig.issuer jwtConfig.audience now with
    | ok p => simp [verifyAccessToken, h, Except.mapError]
    | error e => cases e <;> simp [verifyAccessToken, h, Except.mapError]
  · unfold jwtVerify
    split_ifs with h1 h2 h3 h4 <;> simp_all

/-- C8: an identity whose role permission set contains the wildcard passes
requirePermission for every permission string, requireAnyPermission for
any non-empty required list, and requireAllPermissions for any required
list; and requirePermission succeeds exactly when the required permission
or the wildcard is in the permission set. -/
theorem C8_wildcard_short_circuits (u w : UserWithRole) (x : String)
    (l : List String)
    (hw : u.role.permissions.contains "*" = true) (hl : l ≠ []) :
    requirePermission (some u) x = .ok () ∧
    requireAnyPermission (some u) l = .ok () ∧
    requireAllPermissions (some u) l = .ok () ∧
    (requirePermission (some w) x = .ok ()
      ↔ (w.role.permissions.contains x = true
          ∨ w.role.permissions.contains "*" = true)) := by
  have hmem : "*" ∈ u.role.permissions := by simpa using hw
  refine ⟨?_, ?_, ?_, ?_⟩
  · simp [requirePermission, hmem]
  · simp [requireAnyPermission, hmem]
  · simp [requireAllPermissions, hmem]
  · cases hx : w.role.permissions.contains x <;>
      cases hstar : w.role.permissions.contains "*" <;>
      simp at hx hstar <;>
      simp [requirePermission, hx, hstar]

/-- Concrete wildcard-only identity used by the C8 witness. -/
def adminC8 : UserWithRole :=
  { id := 1, email := "a@x.com", is_active := true, login_attempts := 0
    locked_until := none
    role := { id := 1, name := "admin", display_name := "Admin"
              permissions := ["*"], is_active := true } }

/-- Witness for C8 at a concrete wildcard-only identity. -/
theorem C8_wildcard_witness :
    adminC8.role.permissions.contains "*" = true ∧
    requirePermission (some adminC8) "tasks.read" = .ok () := by
  refine ⟨by decide, ?_⟩
  exact (C8_wildcard_short_circuits adminC8 adminC8 "tasks.read" ["tasks.read"]
    (by decide) (by decide)).1

/-- C10 counterexample: a permissions cell holding the number 7 — neither
an array nor a string — is passed through unchanged by the getUserByEmail
normalization instead of becoming the empty list. -/
theorem C10_counterexample :
    parsePermissionsByEmail (fun _ => none) (.num 7) = .num 7 ∧
    DBVal.num 7 ≠ DBVal.arr [] := by
  exact ⟨rfl, by decide⟩

/-- C10 (amended): getUserById maps every malformed permissions cell (an
unparsable string, a number, null) to the empty list; getUserByEmail does
so for unparsable strings and falsy values, but passes a truthy value
that is neither an array nor a string through unchanged; neither
resolution raises (both normalizations are total). -/
theorem C10_permissions_never_raise (parse : String → Option DBVal)
    (s : String) (n : Int) (hps : parse s = none) :
    parsePermissionsById parse (.num n) = .arr [] ∧
    parsePermissionsById parse .null = .arr [] ∧
    parsePermissionsById parse (.str s) = .arr [] ∧
    parsePermissionsByEmail parse (.str s) = .arr [] ∧
    parsePermissionsByEmail parse .null = .arr [] ∧
    (n ≠ 0 → parsePermissionsByEmail parse (.num n) = .num n) ∧
    parsePermissionsByEmail parse (.num 0) = .arr [] := by
  refine ⟨rfl, rfl, ?_, ?_, rfl, ?_, rfl⟩
  · simp [parsePermissionsById, hps]
  · by_cases hs : s = "" <;> simp [parsePermissionsByEmail, hs, hps]
  · intro hn
    simp [parsePermissionsByEmail, jsTruthy, hn]

/-- Witness for C10 (amended) at a throwing parse and concrete cells. -/
theorem C10_permissions_never_raise_witness :
    (fun (_ : String) => (none : Option DBVal)) "not-json" = none ∧
    parsePermissionsById (fun _ => none) (.str "not-json") = .arr [] := by
  exact ⟨rfl, (C10_permissions_never_raise (fun _ => none) "not-json" 7 rfl).2.2.1⟩

/-- C4: a user whose locked_until is set and strictly in the future is
rejected with ACCOUNT_LOCKED on any login attempt, with any password; the
store is returned unchanged (attempt counter and locked_until untouched)
and the stored password hash is never compared. -/
theorem C4_locked_login_rejected (db : DB) (email password st rt : String)
    (t T : Nat) (w : UserWithRole)
    (hfind : getUserByEmail db email = some w)
    (hlock : w.locked_until = some T) (hfut : t < T) :
    loginUser db email password st rt t =
      ⟨.error ⟨"Cuenta bloqueada temporalmente", 423, .ACCOUNT_LOCKED⟩, db, false⟩ := by
  have hL : isUserLocked w t = true := by simp [isUserLocked, hlock, hfut]
  simp [loginUser, hfind, hL]

/-- Concrete store for the C4 witness: one locked user and its role. -/
def dbC4 : DB :=
  { users := [{ id := 1, email := "a@x.com", password_hash := "bcrypt$secret"
                role_id := 4, is_active := true, login_attempts := 0
                locked_until := some 1000, last_login := none }]
    roles := [{ id := 4, name := "user", display_name := "User"
                permissions := ["tasks.read"], is_active := true }]
    sessions := []
    nextSessionId := 1 }

/-- Witness for C4: the locked user is rejected with the correct password
and the store is untouched. -/
theorem C4_locked_login_rejected_witness :
    (getUserByEmail dbC4 "a@x.com").map (fun w => w.locked_until)
      = some (some 1000) ∧
    loginUser dbC4 "a@x.com" "secret" "st" "rt" 500 =
      ⟨.error ⟨"Cuenta bloqueada temporalmente", 423, .ACCOUNT_LOCKED⟩, dbC4, false⟩ := by
  refine ⟨by decide, ?_⟩
  exact C4_locked_login_rejected dbC4 "a@x.com" "secret" "st" "rt" 500 1000
    { id := 1, email := "a@x.com", is_active := true, login_attempts := 0
      locked_until := some 1000
      role := { id := 4, name := "user", display_name := "User"
                permissions := ["tasks.read"], is_active := true } }
    (by decide) rfl (by decide)

/-- C5: for an active, non-expired session whose owning user exists and is
active, refreshAccessToken returns a new access token embedding the
user's role permissions as stored at refresh time, and echoes the
caller-supplied refresh secret unchanged. -/
theorem C5_refresh_live_permissions (db : DB) (rt : String) (t : Nat)
    (session : UserSession) (user : UserWithRole)
    (hs : db.sessions.find? (fun s =>
        s.refresh_token == rt && s.is_active && decide (t < s.expires_at))
      = some session)
    (hu : getUserById db session.user_id = some user)
    (hact : user.is_active = true) :
    (refreshAccessToken db rt t).map (fun r => r.access_token.payload.permissions)
        = .ok (some user.role.permissions) ∧
    (refreshAccessToken db rt t).map (fun r => r.refresh_token) = .ok rt := by
  simp [refreshAccessToken, hs, hu, hact, generateAccessToken, Except.map]

/-- Concrete store for the C5 witness: an active session whose user's role
permissions differ from any snapshot taken at login time. -/
def dbC5 : DB :=
  { users := [{ id := 1, email := "a@x.com", password_hash := "bcrypt$secret"
                role_id := 4, is_active := true, login_attempts := 0
                locked_until := none, last_login := none }]
    roles := [{ id := 4, name := "user", display_name := "User"
                permissions := ["tasks.read", "tasks.write"], is_active := true }]
    sessions := [{ id := 1, user_id := 1, session_token := "s1"
                   refresh_token := "r1", is_active := true, expires_at := 100000 }]
    nextSessionId := 2 }

/-- Witness for C5 at the concrete store. -/
theorem C5_refresh_live_permissions_witness :
    (dbC5.sessions.find? (fun s =>
        s.refresh_token == "r1" && s.is_active && decide (50 < s.expires_at))).isSome ∧
    (refreshAccessToken dbC5 "r1" 50).map (fun r => r.access_token.payload.permissions)
      = .ok (some ["tasks.read", "tasks.write"]) := by
  refine ⟨by decide, ?_⟩
  exact (C5_refresh_live_permissions dbC5 "r1" 50
    { id := 1, user_id := 1, session_token := "s1", refresh_token := "r1"
      is_active := true, expires_at := 100000 }
    { id := 1, email := "a@x.com", is_active := true, login_attempts := 0
      locked_until := none
      role := { id := 4, name := "user", display_name := "User"
                permissions := ["tasks.read", "tasks.write"], is_active := true } }
    (by decide) (by decide) rfl).1

/-- C1: once a session is revoked via logoutUser, authenticate rejects any
access token carrying that session id with TOKEN_INVALID ("Invalid or
expired session"), even when the token itself still verifies. -/
theorem C1_logout_beats_token_expiry (db : DB) (sid : Nat)
    (tok : SignedToken) (now : Nat) (p : JWTPayload)
    (hv : verifyAccessToken tok now = .ok p)
    (hsid : p.session_id = sid) :
    authenticate (logoutUser db sid) (.bearer tok) now =
      .error ⟨"Invalid or expired session", 401, .TOKEN_INVALID⟩ := by
  have hnone : getActiveSessionById (logoutUser db sid) sid now = none := by
    apply List.find?_eq_none.mpr
    intro x hx
    simp only [logoutUser, List.mem_map] at hx
    obtain ⟨s, hsmem, rfl⟩ := hx
    by_cases h : (s.id == sid) = true <;> simp [h]
  simp [authenticate, hv, hsid, hnone]

/-- Concrete store and token for the C1 witness. -/
def dbC1 : DB :=
  { users := [{ id := 1, email := "a@x.com", password_hash := "bcrypt$secret"
                role_id := 4, is_active := true, login_attempts := 0
                locked_until := none, last_login := none }]
    roles := [{ id := 4, name := "user", display_name := "User"
                permissions := ["tasks.read"], is_active := true }]
    sessions := [{ id := 1, user_id := 1, session_token := "s1"
                   refresh_token := "r1", is_active := true
                   expires_at := 604800000 }]
    nextSessionId := 2 }

/-- Access token for the C1 witness, issued at time 0 for session 1. -/
def tokC1 : SignedToken :=
  generateAccessToken
    { user_id := 1, email := "a@x.com", role := "user"
      permissions := some ["tasks.read"], session_id := 1 } 0

/-- Witness for C1: the token still verifies at time 1000, yet after
logging session 1 out authenticate rejects it. -/
theorem C1_logout_beats_token_expiry_witness :
    verifyAccessToken tokC1 1000 =
      .ok { user_id := 1, email := "a@x.com", role := "user"
            permissions := some ["tasks.read"], session_id := 1 } ∧
    authenticate (logoutUser dbC1 1) (.bearer tokC1) 1000 =
      .error ⟨"Invalid or expired session", 401, .TOKEN_INVALID⟩ := by
  refine ⟨by decide, ?_⟩
  exact C1_logout_beats_token_expiry dbC1 1 tokC1 1000
    { user_id := 1, email := "a@x.com", role := "user"
      permissions := some ["tasks.read"], session_id := 1 }
    (by decide) rfl

/-- C3: in authenticate, when the resolved user's role carries an empty
permission set, the permission list embedded in the verified token
payload is substituted as the identity's permission set (the fallback at
the end of the current auth middleware, packaged in
src/middleware/errorHandler.ts lines 191-194). -/
theorem C3_empty_permissions_fallback (db : DB) (tok : SignedToken)
    (now : Nat) (p : JWTPayload) (session : UserSession) (user : UserWithRole)
    (hv : verifyAccessToken tok now = .ok p)
    (hs : getActiveSessionById db p.session_id now = some session)
    (hu : getUserById db p.user_id = some user)
    (hua : user.is_active = true) (hra : user.role.is_active = true)
    (hemp : user.role.permissions = []) :
    (authenticate db (.bearer tok) now).map (fun i => i.user.role.permissions)
      = .ok (p.permissions.getD []) := by
  simp [authenticate, hv, hs, hu, hua, hra, hemp, Except.map]

/-- Concrete store for the C3 witness: the user's role row carries an
empty permission set while the token payload still holds the list
embedded at issuance. -/
def dbC3 : DB :=
  { users := [{ id := 1, email := "a@x.com", password_hash := "bcrypt$secret"
                role_id := 4, is_active := true, login_attempts := 0
                locked_until := none, last_login := none }]
    roles := [{ id := 4, name := "user", display_name := "User"
                permissions := [], is_active := true }]
    sessions := [{ id := 1, user_id := 1, session_token := "s1"
                   refresh_token := "r1", is_active := true
                   expires_at := 604800000 }]
    nextSessionId := 2 }

/-- Witness for C3 at the concrete store: the identity keeps the payload's
permission list. -/
theorem C3_empty_permissions_fallback_witness :
    (getUserById dbC3 1).map (fun u => u.role.permissions) = some [] ∧
    (authenticate dbC3 (.bearer tokC1) 1000).map (fun i => i.user.role.permissions)
      = .ok ["tasks.read"] := by
  refine ⟨by decide, ?_⟩
  exact C3_empty_permissions_fallback dbC3 tokC1 1000
    { user_id := 1, email := "a@x.com", role := "user"
      permissions := some ["tasks.read"], session_id := 1 }
    { id := 1, user_id := 1, session_token := "s1", refresh_token := "r1"
      is_active := true, expires_at := 604800000 }
    { id := 1, email := "a@x.com", is_active := true, login_attempts := 0
      locked_until := none
      role := { id := 4, name := "user", display_name := "User"
                permissions := [], is_active := true } }
    (by decide) (by decide) (by decide) rfl rfl rfl

/-- C7: on every successful login, the issued refresh token's payload
carries no permissions claim, while the access token issued in the same
call carries the user's role permission list. -/
theorem C7_refresh_payload_excludes_permissions (db : DB)
    (email password st rt : String) (t : Nat) (resp : LoginResponse)
    (h : (loginUser db email password st rt t).outcome = .ok resp) :
    resp.refresh_token.payload.permissions = none ∧
    resp.access_token.payload.permissions = some resp.user.role.permissions := by
  rw [loginUser] at h
  cases hu : getUserByEmail db email with
  | none => rw [hu] at h; simp at h
  | some user =>
    rw [hu] at h
    by_cases hL : isUserLocked user t = true
    · simp [hL] at h
    · simp only [hL, if_false, Bool.false_eq_true, if_neg, not_false_eq_true] at h
      by_cases ha : (!user.is_active) = true
      · simp [ha] at h
      · simp only [ha, Bool.false_eq_true, if_neg, not_false_eq_true] at h
        cases hq : queryUserById db user.id with
        | none => rw [hq] at h; simp at h
        | some row =>
          rw [hq] at h
          by_cases hc : (!bcryptCompare password row.password_hash) = true
          · by_cases hm : MAX_LOGIN_ATTEMPTS ≤ (incrementLoginAttempts db user.id).2
            · simp [hc, hm] at h
            · simp [hc, hm] at h
          · simp only [hc, Bool.false_eq_true, if_neg, not_false_eq_true] at h
            simp only [LoginResult.outcome, Except.ok.injEq] at h
            subst h
            exact ⟨rfl, rfl⟩

/-- The login response produced by the C7 witness scenario. -/
def respC7 : LoginResponse :=
  { user := { id := 1, email := "a@x.com", is_active := true
              login_attempts := 0, locked_until := none
              role := { id := 4, name := "user", display_name := "User"
                        permissions := ["tasks.read"], is_active := true } }
    access_token := generateAccessToken
      { user_id := 1, email := "a@x.com", role := "user"
        permissions := some ["tasks.read"], session_id := 2 } 100
    refresh_token := generateRefreshToken
      { user_id := 1, email := "a@x.com", role := "user"
        permissions := none, session_id := 2 } 100
    expires_in := some 900 }

/-- Witness for C7: a concrete successful login whose refresh token
carries no permissions claim. -/
theorem C7_refresh_payload_excludes_permissions_witness :
    (loginUser dbC1 "a@x.com" "secret" "st" "rt" 100).outcome = .ok respC7 ∧
    respC7.refresh_token.payload.permissions = none := by
  refine ⟨by decide, ?_⟩
  exact (C7_refresh_payload_excludes_permissions dbC1 "a@x.com" "secret"
    "st" "rt" 100 respC7 (by decide)).1

lemma loginUser_wrong_password_step (u : User) (r : Role)
    (ss : List UserSession) (nsid : Nat) (password st rt : String)
    (t k : Nat) (hrole : u.role_id = r.id) (hlock : u.locked_until = none)
    (hact : u.is_active = true)
    (hpw : bcryptCompare password u.password_hash = false)
    (hk : u.login_attempts = k) (hlt : k + 1 < 5) :
    loginUser ⟨[u], [r], ss, nsid⟩ u.email password st rt t =
      ⟨.error ⟨"Credenciales inválidas", 401, .INVALID_CREDENTIALS⟩,
       ⟨[{ u with login_attempts := k + 1 }], [r], ss, nsid⟩, true⟩ := by
  have hnle : ¬ (5 ≤ k + 1) := by omega
  simp [loginUser, getUserByEmail, queryUserByEmail, queryUserById, joinRole,
        queryRoleById, getUserById, isUserLocked, incrementLoginAttempts,
        updateUserRow, MAX_LOGIN_ATTEMPTS, hrole, hlock, hact, hpw, hk, hnle]

lemma loginUser_wrong_password_lock (u : User) (r : Role)
    (ss : List UserSession) (nsid : Nat) (password st rt : String)
    (t k : Nat) (hrole : u.role_id = r.id) (hlock : u.locked_until = none)
    (hact : u.is_active = true)
    (hpw : bcryptCompare password u.password_hash = false)
    (hk : u.login_attempts = k) (hge : 5 ≤ k + 1) :
    loginUser ⟨[u], [r], ss, nsid⟩ u.email password st rt t =
      ⟨.error ⟨"Demasiados intentos fallidos. Cuenta bloqueada temporalmente",
               423, .ACCOUNT_LOCKED⟩,
       ⟨[{ u with login_attempts := 0, locked_until := some (t + LOCKOUT_TIME) }],
        [r], ss, nsid⟩, true⟩ := by
  simp [loginUser, getUserByEmail, queryUserByEmail, queryUserById, joinRole,
        queryRoleById, getUserById, isUserLocked, incrementLoginAttempts,
        updateUserRow, lockUser, MAX_LOGIN_ATTEMPTS, hrole, hlock, hact, hpw,
        hk, hge]

/-- C2: for a user with a zero attempt counter and no active lock, each of
the first four consecutive wrong-password logins fails with
INVALID_CREDENTIALS and leaves the account unlocked (locked_until stays
none while the counter climbs); the fifth fails with ACCOUNT_LOCKED,
sets locked_until to now + 15 minutes, and resets the counter to 0 in the
same transition. -/
theorem C2_lockout_threshold (u : User) (r : Role) (ss : List UserSession)
    (nsid : Nat) (password st rt : String) (t1 t2 t3 t4 t5 : Nat)
    (hrole : u.role_id = r.id) (h0 : u.login_attempts = 0)
    (hlock : u.locked_until = none) (hact : u.is_active = true)
    (hpw : bcryptCompare password u.password_hash = false) :
    let db0 : DB := ⟨[u], [r], ss, nsid⟩
    let s1 := loginUser db0 u.email password st rt t1
    let s2 := loginUser s1.db u.email password st rt t2
    let s3 := loginUser s2.db u.email password st rt t3
    let s4 := loginUser s3.db u.email password st rt t4
    let s5 := loginUser s4.db u.email password st rt t5
    s1.outcome = .error ⟨"Credenciales inválidas", 401, .INVALID_CREDENTIALS⟩ ∧
    s2.outcome = .error ⟨"Credenciales inválidas", 401, .INVALID_CREDENTIALS⟩ ∧
    s3.outcome = .error ⟨"Credenciales inválidas", 401, .INVALID_CREDENTIALS⟩ ∧
    s4.outcome = .error ⟨"Credenciales inválidas", 401, .INVALID_CREDENTIALS⟩ ∧
    s1.db.users = [{ u with login_attempts := 1 }] ∧
    s2.db.users = [{ u with login_attempts := 2 }] ∧
    s3.db.users = [{ u with login_attempts := 3 }] ∧
    s4.db.users = [{ u with login_attempts := 4 }] ∧
    s5.outcome = .error ⟨"Demasiados intentos fallidos. Cuenta bloqueada temporalmente",
                         423, .ACCOUNT_LOCKED⟩ ∧
    s5.db.users = [{ u with login_attempts := 0
                            locked_until := some (t5 + LOCKOUT_TIME) }] := by
  intro db0 s1 s2 s3 s4 s5
  have e1 : s1 = ⟨.error ⟨"Credenciales inválidas", 401, .INVALID_CREDENTIALS⟩,
      ⟨[{ u with login_attempts := 1 }], [r], ss, nsid⟩, true⟩ :=
    loginUser_wrong_password_step u r ss nsid password st rt t1 0
      hrole hlock hact hpw h0 (by omega)
  have e2 : s2 = ⟨.error ⟨"Credenciales inválidas", 401, .INVALID_CREDENTIALS⟩,
      ⟨[{ u with login_attempts := 2 }], [r], ss, nsid⟩, true⟩ := by
    show loginUser s1.db u.email password st rt t2 = _
    rw [e1]
    exact loginUser_wrong_password_step { u with login_attempts := 1 } r ss nsid
      password st rt t2 1 hrole hlock hact hpw rfl (by omega)
  have e3 : s3 = ⟨.error ⟨"Credenciales inválidas", 401, .INVALID_CREDENTIALS⟩,
      ⟨[{ u with login_attempts := 3 }], [r], ss, nsid⟩, true⟩ := by
    show loginUser s2.db u.email password st rt t3 = _
    rw [e2]
    exact loginUser_wrong_password_step { u with login_attempts := 2 } r ss nsid
      password st rt t3 2 hrole hlock hact hpw rfl (by omega)
  have e4 : s4 = ⟨.error ⟨"Credenciales inválidas", 401, .INVALID_CREDENTIALS⟩,
      ⟨[{ u with login_attempts := 4 }], [r], ss, nsid⟩, true⟩ := by
    show loginUser s3.db u.email password st rt t4 = _
    rw [e3]
    exact loginUser_wrong_password_step { u with login_attempts := 3 } r ss nsid
      password st rt t4 3 hrole hlock hact hpw rfl (by omega)
  have e5 : s5 = ⟨.error ⟨"Demasiados intentos fallidos. Cuenta bloqueada temporalmente",
      423, .ACCOUNT_LOCKED⟩,
      ⟨[{ u with login_attempts := 0, locked_until := some (t5 + LOCKOUT_TIME) }],
       [r], ss, nsid⟩, true⟩ := by
    show loginUser s4.db u.email password st rt t5 = _
    rw [e4]
    exact loginUser_wrong_password_lock { u with login_attempts := 4 } r ss nsid
      password st rt t5 4 hrole hlock hact hpw rfl (by omega)
  rw [e1, e2, e3, e4, e5]
  exact ⟨rfl, rfl, rfl, rfl, rfl, rfl, rfl, rfl, rfl, rfl⟩

/-- Concrete fresh user and role for the C2 witness. -/
def uC2 : User :=
  { id := 1, email := "a@x.com", password_hash := "bcrypt$secret"
    role_id := 4, is_active := true, login_attempts := 0
    locked_until := none, last_login := none }

def rC2 : Role :=
  { id := 4, name := "user", display_name := "User"
    permissions := ["tasks.read"], is_active := true }

/-- Witness for C2: five consecutive wrong-password logins on a concrete
fresh user end in ACCOUNT_LOCKED. -/
theorem C2_lockout_threshold_witness :
    bcryptCompare "wrong" uC2.password_hash = false ∧
    (loginUser (loginUser (loginUser (loginUser (loginUser
        ⟨[uC2], [rC2], [], 1⟩
        uC2.email "wrong" "st" "rt" 10).db uC2.email "wrong" "st" "rt" 20).db
        uC2.email "wrong" "st" "rt" 30).db uC2.email "wrong" "st" "rt" 40).db
        uC2.email "wrong" "st" "rt" 50).outcome
      = .error ⟨"Demasiados intentos fallidos. Cuenta bloqueada temporalmente",
                423, .ACCOUNT_LOCKED⟩ := by
  refine ⟨by decide, ?_⟩
  exact (C2_lockout_threshold uC2 rC2 [] 1 "wrong" "st" "rt" 10 20 30 40 50
    rfl rfl rfl rfl (by decide)).2.2.2.2.2.2.2.2.1
